import Mathlib

/-!
Shallow embedding of `egui_property_editor` (src/src/lib.rs) for checking the
natural-language specification against the code.

Modelling conventions:
* egui (the host immediate-mode GUI framework) is an external collaborator.
  Its drawing surface is modelled by an opaque state type `σ` together with a
  record `Host σ ρ` of the host primitives the crate calls (`ui.label`,
  `ui.checkbox`, `ui.end_row`, grid begin/end, painter calls for the error
  highlight, headline galley drawing, `ui.available_width`,
  `ui.spacing().item_spacing.x`).  `ρ` is the host `egui::Response` type.
* Rust `f32`/`f64` values (widths, seconds) are modelled as exact rationals
  `ℚ`.  Every concrete value evaluated in the theorems below is exactly
  representable in the corresponding float type and all arithmetic on those
  values is exact in the float semantics as well, so the idealisation does not
  change any evaluated result.
* `FnOnce` closures capturing `&mut` state become explicit state-passing
  functions `σ → ... → Bool × σ`; the single mutable slot of
  `Property::new_optional` is threaded explicitly (see `new_optional_draw`).
-/

/-- Rust `egui::WidgetText`, modelled as its text content. -/
abbrev WidgetText := String

/-- Rust `egui::Id`; only its identity role matters here. -/
abbrev EguiId := Nat

/-- `enum ValidationError` from src/src/lib.rs. -/
inductive ValidationError where
  | OutOfRange : ValidationError
  | CustomWithMessage : String → ValidationError
deriving DecidableEq

/-- The `Display` impl for `ValidationError` (src/src/lib.rs lines 564-575). -/
def ValidationError.display : ValidationError → String
  | .OutOfRange => "The value is out of range."
  | .CustomWithMessage msg => msg

/-- Rust `Result<(), ValidationError>`. -/
abbrev VResult := Except ValidationError Unit

/-- Configuration handed to `egui::Grid` by `PropertyEditor::inner_ui`
(lines 156-164): `striped`, `num_columns`, and the optional clamped
`min_col_width`.  The grid id (`ui.next_auto_id()`) plays no role here. -/
structure GridConfig where
  striped : Bool
  num_columns : Nat
  min_col_width : Option ℚ
deriving DecidableEq

/-- The host (egui) primitives used by the crate, over an abstract surface
state `σ` and response type `ρ`.  Each field stands for one external egui
call; the crate treats all of them as black boxes. -/
structure Host (σ ρ : Type) where
  /-- `ui.label(text)` (also used with an empty string for blank cells). -/
  label : WidgetText → σ → σ
  /-- The description cell body: `ui.with_layout(top_down(Min), ..)` setting
  `wrap_mode = Wrap` and drawing the label. -/
  labelWrapped : WidgetText → σ → σ
  /-- `ui.end_row()`. -/
  endRow : σ → σ
  /-- `ui.checkbox(&mut b, "")`: receives the current boolean, returns the
  possibly user-toggled boolean and the new surface state. -/
  checkbox : Bool → σ → Bool × σ
  /-- The whole `EditorLine::Headline` arm of `inner_ui` (lines 168-181):
  galley layouting, `allocate_response`, `end_row`, painter `galley` call. -/
  drawHeadline : WidgetText → σ → σ
  /-- The error decoration of `default_property_draw_fn` (lines 907-921):
  `rect_stroke` + `?` marker + `on_hover_text` with the display text. -/
  errorHighlight : ρ → String → σ → σ
  /-- Entering `Grid::show`: the grid builds its child ui from the config. -/
  gridBegin : GridConfig → σ → σ
  /-- Leaving `Grid::show` (allocating the grid rect in the parent ui). -/
  gridEnd : σ → σ
  /-- `ui.available_width()`. -/
  availableWidth : σ → ℚ
  /-- `ui.spacing().item_spacing.x`. -/
  itemSpacingX : σ → ℚ

/-- `struct Property<'a>` (lines 428-437).  The boxed `PropertyDrawFn`
closure becomes a state-passing function with the same argument list
`(ui, name, description, validation_result, draw_description) -> bool`. -/
structure Property (σ : Type) where
  name : Option WidgetText
  description : Option WidgetText
  draw_fn : σ → Option WidgetText → Option WidgetText → VResult → Bool → Bool × σ
  validation_result : VResult

/-- `Property::draw` (lines 541-549): invoke the deferred draw function on the
property's own fields. -/
def Property.draw {σ : Type} (p : Property σ) (ui : σ) (draw_description : Bool) :
    Bool × σ :=
  p.draw_fn ui p.name p.description p.validation_result draw_description

/-- The `if let Some(name) { ui.label(name) } else { ui.label("") }` pattern
that both `default_property_draw_fn` and `new_optional` inline. -/
def labelOrEmpty {σ ρ : Type} (host : Host σ ρ) (t : Option WidgetText) (ui : σ) : σ :=
  match t with
  | some n => host.label n ui
  | none => host.label ("") ui

/-- The description cell: wrapped label when a description exists, blank label
otherwise (the `if draw_descr { .. }` bodies of both draw paths). -/
def descriptionCell {σ ρ : Type} (host : Host σ ρ) (d : Option WidgetText) (ui : σ) : σ :=
  match d with
  | some dd => host.labelWrapped dd ui
  | none => host.label ("") ui

/-- `default_property_draw_fn` (lines 877-926): name cell, widget callback,
optional description cell, `end_row`, then error decoration; returns `false`
exactly on `Err` and `true` on `Ok`. -/
def default_property_draw_fn {σ ρ : Type} (host : Host σ ρ) (ui : σ)
    (name description : Option WidgetText) (validation_result : VResult)
    (draw_description : Bool) (widget_cb : σ → ρ × σ) : Bool × σ :=
  let ui := labelOrEmpty host name ui
  let r := widget_cb ui
  let ui := if draw_description then descriptionCell host description r.2 else r.2
  let ui := host.endRow ui
  match validation_result with
  | .error e => (false, host.errorHighlight r.1 (ValidationError.display e) ui)
  | .ok _ => (true, ui)

/-- `Property::from_widget_fn` (lines 441-450). -/
def Property.from_widget_fn {σ ρ : Type} (host : Host σ ρ) (cb : σ → ρ × σ) :
    Property σ where
  name := none
  description := none
  draw_fn := fun ui name descr valid draw_descr =>
    default_property_draw_fn host ui name descr valid draw_descr cb
  validation_result := .ok ()

/-- `Property::from_custom_draw_fn` (lines 455-462). -/
def Property.from_custom_draw_fn {σ : Type}
    (cb : σ → Option WidgetText → Option WidgetText → VResult → Bool → Bool × σ) :
    Property σ where
  name := none
  description := none
  draw_fn := cb
  validation_result := .ok ()

/-- Builder-style `Property::name` (lines 521-526); named `withName` because
the structure field already carries the Rust name. -/
def Property.withName {σ : Type} (p : Property σ) (name : WidgetText) : Property σ :=
  { p with name := some name }

/-- Builder-style `Property::description` (lines 529-534). -/
def Property.withDescription {σ : Type} (p : Property σ) (description : WidgetText) :
    Property σ :=
  { p with description := some description }

/-- The slot update inside `Property::new_optional` (lines 496-502):
`if cb != value.is_some() { if cb { *value = Some(default) } else { *value = None } }`. -/
def optionalSlotUpdate {T : Type} (cb : Bool) (value : Option T) (default : T) :
    Option T :=
  if cb ≠ value.isSome then
    if cb then some default else none
  else
    value

/-- The `for p in property_cb(ui, val) { inner_validation_result &= p.draw(..) }`
loop of `new_optional` (lines 504-508), with accumulator and threaded state. -/
def drawPropList {σ : Type} (dd : Bool) :
    List (Property σ) → Bool → σ → Bool × σ
  | [], acc, ui => (acc, ui)
  | p :: rest, acc, ui =>
    let r := p.draw ui dd
    drawPropList dd rest (acc && r.1) r.2

/-- The body of the `custom_draw_fn` closure of `Property::new_optional`
(lines 476-511).  The Rust closure writes the updated slot back through its
captured `&mut Option<T>`; here the updated slot is returned as the third
component.  Note that the closure ignores the `validation_result` argument
(the `_` binder in the Rust source) and returns `inner_validation_result`. -/
def new_optional_draw {σ ρ T : Type} (host : Host σ ρ) (value : Option T)
    (default : T) (property_cb : σ → T → List (Property σ)) (ui : σ)
    (name description : Option WidgetText) (draw_descr : Bool) :
    Bool × σ × Option T :=
  let cb0 := value.isSome
  let ui := labelOrEmpty host name ui
  let c := host.checkbox cb0 ui
  let ui := if draw_descr then descriptionCell host description c.2 else c.2
  let ui := host.endRow ui
  let value := optionalSlotUpdate c.1 value default
  match value with
  | some v =>
    let r := drawPropList draw_descr (property_cb ui v) true ui
    (r.1, r.2, some v)
  | none => (true, ui, none)

/-- `Property::new_optional` (lines 469-518): name set, description as given,
`validation_result` always `Ok(())`, and the custom draw closure above (the
updated slot, written through the captured reference in Rust, is dropped by
this wrapper; `new_optional_draw` exposes it). -/
def Property.new_optional {σ ρ T : Type} (host : Host σ ρ) (name : WidgetText)
    (description : Option WidgetText) (value : Option T) (default : T)
    (property_cb : σ → T → List (Property σ)) : Property σ where
  name := some name
  description := description
  draw_fn := fun ui n d _ dd =>
    let r := new_optional_draw host value default property_cb ui n d dd
    (r.1, r.2.1)
  validation_result := .ok ()

/-- `struct ValidatedProperty<'a, T>` (lines 583-588). -/
structure ValidatedProperty (T : Type) where
  value : T
  validation_cb : T → VResult

/-- `default_validation_cb` (lines 872-874). -/
def default_validation_cb {T : Type} (_val : T) : VResult := .ok ()

/-- `ValidatedProperty::unvalidated` (lines 592-597). -/
def ValidatedProperty.unvalidated {T : Type} (value : T) : ValidatedProperty T :=
  { value := value, validation_cb := default_validation_cb }

/-- `ValidatedProperty::new` (lines 626-634). -/
def ValidatedProperty.new {T : Type} (value : T) (validation_cb : T → VResult) :
    ValidatedProperty T :=
  { value := value, validation_cb := validation_cb }

/-- `ValidatedProperty::with_widget_cb` (lines 637-642): a from_widget_fn
property whose `validation_result` is the eagerly evaluated callback. -/
def ValidatedProperty.with_widget_cb {σ ρ T : Type} (vp : ValidatedProperty T)
    (host : Host σ ρ) (cb : T → σ → ρ × σ) : Property σ :=
  { Property.from_widget_fn host (cb vp.value) with
      validation_result := vp.validation_cb vp.value }

/-- `impl From<ValidatedProperty<T>> for Property` (lines 817-827): run the
base conversion of `T`, then overwrite `validation_result` with the eagerly
evaluated callback.  `conv` is the `Property: From<T>` instance in use. -/
def ValidatedProperty.toProperty {σ T : Type} (vp : ValidatedProperty T)
    (conv : T → Property σ) : Property σ :=
  { conv vp.value with validation_result := vp.validation_cb vp.value }

/-- `enum EditorLine<'a>` (lines 311-317). -/
inductive EditorLine (σ : Type) where
  | Headline : WidgetText → EditorLine σ
  | Property : Property σ → EditorLine σ

/-- Whether an editor line is a `Property` row carrying a description. -/
def EditorLine.hasDescription {σ : Type} : EditorLine σ → Bool
  | .Headline _ => false
  | .Property p => p.description.isSome

/-- `struct PropertyEditor<'a>` (lines 35-50). -/
structure PropertyEditor (σ : Type) where
  id : EguiId
  show_descriptions : Bool
  show_stripes : Bool
  group_all : Bool
  min_column_width : Option ℚ
  headline_spacing : ℚ × ℚ
  entries : List (EditorLine σ)

/-- `PropertyEditor::new` (lines 54-64). -/
def PropertyEditor.new {σ : Type} (id_source : EguiId) : PropertyEditor σ where
  id := id_source
  show_descriptions := false
  show_stripes := false
  group_all := false
  min_column_width := none
  headline_spacing := (0, 5)
  entries := []

/-- `PropertyEditor::stripes` (lines 203-206). -/
def PropertyEditor.stripes {σ : Type} (e : PropertyEditor σ) (show_stripes : Bool) :
    PropertyEditor σ :=
  { e with show_stripes := show_stripes }

/-- `PropertyEditor::outer_border` (lines 209-212). -/
def PropertyEditor.outer_border {σ : Type} (e : PropertyEditor σ) (outer_border : Bool) :
    PropertyEditor σ :=
  { e with group_all := outer_border }

/-- `PropertyEditor::headline_spacing` (lines 215-218). -/
def PropertyEditor.set_headline_spacing {σ : Type} (e : PropertyEditor σ)
    (spacing : ℚ × ℚ) : PropertyEditor σ :=
  { e with headline_spacing := spacing }

/-- `PropertyEditor::min_col_width` (lines 222-225). -/
def PropertyEditor.min_col_width {σ : Type} (e : PropertyEditor σ)
    (min_col_width : Option ℚ) : PropertyEditor σ :=
  { e with min_column_width := min_col_width }

/-- The explicit setter `PropertyEditor::show_descriptions` (lines 228-231);
named `set_show_descriptions` because the structure field keeps the Rust
field name. -/
def PropertyEditor.set_show_descriptions {σ : Type} (e : PropertyEditor σ)
    (show_descriptions : Bool) : PropertyEditor σ :=
  { e with show_descriptions := show_descriptions }

/-- `PropertyEditor::headline` (lines 236-239). -/
def PropertyEditor.headline {σ : Type} (e : PropertyEditor σ) (text : WidgetText) :
    PropertyEditor σ :=
  { e with entries := e.entries ++ [EditorLine.Headline text] }

/-- `PropertyEditor::property` (lines 262-267): OR the description presence
into `show_descriptions`, then append the row. -/
def PropertyEditor.property {σ : Type} (e : PropertyEditor σ) (property : Property σ) :
    PropertyEditor σ :=
  { e with
      show_descriptions := e.show_descriptions || property.description.isSome
      entries := e.entries ++ [EditorLine.Property property] }

/-- `PropertyEditor::named_property` (lines 248-255). -/
def PropertyEditor.named_property {σ : Type} (e : PropertyEditor σ)
    (name : WidgetText) (property : Property σ) : PropertyEditor σ :=
  e.property (property.withName name)

/-- `PropertyEditor::optional_property` (lines 278-292). -/
def PropertyEditor.optional_property {σ ρ T : Type} (e : PropertyEditor σ)
    (host : Host σ ρ) (name : WidgetText) (value : Option T) (default : T)
    (property_cb : σ → T → List (Property σ)) : PropertyEditor σ :=
  e.property (Property.new_optional host name none value default property_cb)

/-- `PropertyEditor::optional_property_default` (lines 295-308); Rust's
`Default` bound is modelled by `Inhabited`. -/
def PropertyEditor.optional_property_default {σ ρ T : Type} [Inhabited T]
    (e : PropertyEditor σ) (host : Host σ ρ) (name : WidgetText) (value : Option T)
    (property_cb : σ → T → List (Property σ)) : PropertyEditor σ :=
  e.property (Property.new_optional host name none value (default : T) property_cb)

/-- The `let columns = if self.show_descriptions { 3 } else { 2 }` of
`inner_ui` (line 156). -/
def PropertyEditor.columns {σ : Type} (e : PropertyEditor σ) : Nat :=
  if e.show_descriptions then 3 else 2

/-- The clamped minimum column width of `inner_ui` (lines 160-163):
`width.min(available_width / columns - item_spacing.x * columns.saturating_sub(1))`. -/
def effectiveMinColWidth (width avail spacing : ℚ) (columns : Nat) : ℚ :=
  min width (avail / (columns : ℚ) - spacing * ((columns - 1 : Nat) : ℚ))

/-- The grid configuration built by `inner_ui` (lines 156-164). -/
def PropertyEditor.gridConfig {σ ρ : Type} (host : Host σ ρ) (e : PropertyEditor σ)
    (ui : σ) : GridConfig where
  striped := e.show_stripes
  num_columns := e.columns
  min_col_width := e.min_column_width.map fun w =>
    effectiveMinColWidth w (host.availableWidth ui) (host.itemSpacingX ui) e.columns

/-- `egui::Grid::show`: runs the content closure in the grid's child ui and
returns the closure's result (an external egui operation; `gridBegin` and
`gridEnd` are the host's black-box bookkeeping around it). -/
def gridShow {σ ρ α : Type} (host : Host σ ρ) (cfg : GridConfig)
    (f : σ → α × σ) (ui : σ) : α × σ :=
  let r := f (host.gridBegin cfg ui)
  (r.1, host.gridEnd r.2)

mutual

/-- The `while let Some(entry) = entries.next()` loop of `inner_ui`
(lines 166-196): headlines are drawn inline (and close the current run of
grid rows); a `Property` head is drawn and then the inner
`loop { .. entries.next_if(..) .. }` (`editorLoopInner`) drains the run of
consecutive property rows that follows it. -/
def editorLoop {σ ρ : Type} (host : Host σ ρ) (sd : Bool) :
    List (EditorLine σ) → Bool → σ → Bool × σ
  | [], acc, ui => (acc, ui)
  | .Headline t :: rest, acc, ui => editorLoop host sd rest acc (host.drawHeadline t ui)
  | .Property p :: rest, acc, ui =>
    let r := p.draw ui sd
    editorLoopInner host sd rest (acc && r.1) r.2
termination_by es _ _ => 2 * es.length
decreasing_by
  all_goals (try simp only [List.length_cons])
  all_goals omega

/-- The inner `loop { match entries.next_if(|e| matches!(e, Property(_))) }`
of `inner_ui` (lines 185-193): keep drawing while the next entry is a
`Property`, folding each returned boolean into the accumulator; on anything
else `next_if` refuses (leaving the entry in the iterator), the loop breaks
and the outer `while let` (`editorLoop`) resumes. -/
def editorLoopInner {σ ρ : Type} (host : Host σ ρ) (sd : Bool) :
    List (EditorLine σ) → Bool → σ → Bool × σ
  | .Property p :: rest, acc, ui =>
    let r := p.draw ui sd
    editorLoopInner host sd rest (acc && r.1) r.2
  | es, acc, ui => editorLoop host sd es acc ui
termination_by es _ _ => 2 * es.length + 1
decreasing_by
  all_goals (try simp only [List.length_cons])
  all_goals omega

end

/-- `PropertyEditor::inner_ui` (lines 152-200): build the grid configuration
(columns from `show_descriptions`, clamped min column width) and run the row
loop inside `Grid::show`, starting from `validation_result = true`. -/
def PropertyEditor.inner_ui {σ ρ : Type} (host : Host σ ρ) (e : PropertyEditor σ)
    (ui : σ) : Bool × σ :=
  gridShow host (e.gridConfig host ui)
    (fun gui => editorLoop host e.show_descriptions e.entries true gui) ui

/-- Reference renderer: draw each row independently, in insertion order, with
no grid-block batching, collecting every `Property` row's returned boolean in
order (the spec's "semantically equivalent to drawing each row
independently" form). -/
def drawRowsSeq {σ ρ : Type} (host : Host σ ρ) (sd : Bool) :
    List (EditorLine σ) → σ → List Bool × σ
  | [], ui => ([], ui)
  | .Headline t :: rest, ui => drawRowsSeq host sd rest (host.drawHeadline t ui)
  | .Property p :: rest, ui =>
    let r := p.draw ui sd
    let k := drawRowsSeq host sd rest r.2
    (r.1 :: k.1, k.2)

/-- `struct PropertyEditorStore` (lines 319-326), with the `derive(Default)`
defaults made explicit below. -/
structure PropertyEditorStore where
  first_pass : Bool
  last_width : ℚ
deriving DecidableEq

/-- `PropertyEditorStore::default()` as produced by `#[derive(Default)]`:
`bool::default() = false`, `f32::default() = 0.0`. -/
def PropertyEditorStore.derivedDefault : PropertyEditorStore where
  first_pass := false
  last_width := 0

/-- `PropertyEditorStore::load(..).unwrap_or_default()` (line 87): the state
read at the start of `show_outer`, `derivedDefault` when nothing is stored
yet for this id. -/
def PropertyEditorStore.loadOrDefault (stored : Option PropertyEditorStore) :
    PropertyEditorStore :=
  stored.getD PropertyEditorStore.derivedDefault

/-- The re-layout condition of `show_outer` (line 140):
`store.first_pass || store.last_width != final_rect.width()` triggers
`ctx.request_discard`. -/
def staleLayout (store : PropertyEditorStore) (final_width : ℚ) : Bool :=
  store.first_pass || store.last_width != final_width

/-- The state written back at the end of `show_outer` (lines 143-145):
`first_pass = false`, `last_width = final width`. -/
def PropertyEditorStore.afterPass (store : PropertyEditorStore) (final_width : ℚ) :
    PropertyEditorStore :=
  { store with first_pass := false, last_width := final_width }

/-- Fold a digit list into a natural number (helper for number parsing). -/
def digitsToNat (cs : List Char) : Nat :=
  cs.foldl (fun acc c => 10 * acc + (c.toNat - 48)) 0

/-- Rust `str::parse::<f64>` on a character list, idealised over `ℚ`:
optional sign, an integer part and/or a fractional part (at least one digit
overall), and an optional `e`/`E` exponent with its own optional sign and at
least one digit; nothing may be left over.  The special forms `inf`,
`infinity` and `nan` accepted by Rust are not modelled (no input evaluated
below uses them, and they have no rational value).  `tokenizeF64` is the
character-level part: it returns the sign, the integer-part digits, the
fractional-part digits, the optional exponent (sign and digits), and the
leftover characters. -/
def tokenizeF64 (cs : List Char) :
    Bool × List Char × List Char × Option (Bool × List Char) × List Char :=
  let (neg, cs) :=
    match cs with
    | '-' :: rest => (true, rest)
    | '+' :: rest => (false, rest)
    | other => (false, other)
  let ip := cs.takeWhile Char.isDigit
  let cs := cs.dropWhile Char.isDigit
  let (fp, cs) :=
    match cs with
    | '.' :: rest => (rest.takeWhile Char.isDigit, rest.dropWhile Char.isDigit)
    | other => (([] : List Char), other)
  let (eo, cs) :=
    match cs with
    | 'e' :: rest | 'E' :: rest =>
      let (esign, rest) :=
        match rest with
        | '-' :: r => (true, r)
        | '+' :: r => (false, r)
        | r => (false, r)
      (some (esign, rest.takeWhile Char.isDigit), rest.dropWhile Char.isDigit)
    | other => (none, other)
  (neg, ip, fp, eo, cs)

/-- Rust `str::parse::<f64>` on a character list (see `tokenizeF64`): reject
when there are no digits, when characters are left over, or when an exponent
marker has no digits; otherwise the signed value of mantissa and exponent. -/
def parseF64Chars (cs : List Char) : Option ℚ :=
  match tokenizeF64 cs with
  | (neg, ip, fp, eo, rest) =>
    if ip.isEmpty && fp.isEmpty then none
    else if !rest.isEmpty then none
    else
      let mant : ℚ := (digitsToNat ip : ℚ) + (digitsToNat fp : ℚ) / (10 : ℚ) ^ fp.length
      match eo with
      | none => some (if neg then -mant else mant)
      | some (_, []) => none
      | some (esign, ed) =>
        let scale : ℚ := (10 : ℚ) ^ digitsToNat ed
        let v := if esign then mant / scale else mant * scale
        some (if neg then -v else v)

/-- Rust `str::parse::<f64>` on a string (see `parseF64Chars`). -/
def parseF64 (s : String) : Option ℚ :=
  parseF64Chars s.data

/-- Remove leading and trailing whitespace (Rust `str::trim`). -/
def trimChars (cs : List Char) : List Char :=
  ((cs.dropWhile Char.isWhitespace).reverse.dropWhile Char.isWhitespace).reverse

/-- The unit-suffix table of the duration `custom_parser` (lines 758-767):
`num * factor` per recognised unit, `None` otherwise.  The float literals
`1e-9`, `1e-6`, `1e-3` of the source are the exact powers of ten here. -/
def unitSeconds (unit : String) (num : ℚ) : Option ℚ :=
  match unit with
  | "ns" => some (num * (1 / 1000000000))
  | "us" | "µs" => some (num * (1 / 1000000))
  | "ms" => some (num * (1 / 1000))
  | "" | "s" => some num
  | "m" | "min" | "minutes" => some (num * 60)
  | "h" | "hour" | "hours" => some (num * 60 * 60)
  | "d" | "day" | "days" => some (num * 60 * 60 * 24)
  | _ => none

/-- Rust `str::split` with a one-character pattern (used as `s.split(":")`):
splits on every occurrence, keeping empty pieces. -/
def splitOnChar (sep : Char) : List Char → List (List Char)
  | [] => [[]]
  | c :: rest =>
    let r := splitOnChar sep rest
    if c = sep then [] :: r
    else
      match r with
      | h :: t => (c :: h) :: t
      | [] => [[c]]

/-- The `a:b:c` fallback of the duration `custom_parser` (lines 772-806):
2, 3 or 4 colon-separated fields, each parsed as a float, summed with
day = 86400 s, hour = 3600 s, minute = 60 s weights; any other field count or
any unparsable field yields `None`. -/
def parseColonFormat (s : String) : Option ℚ :=
  match splitOnChar ':' s.data with
  | [m, sec] => do
    let mv ← parseF64Chars m
    let sv ← parseF64Chars sec
    some (mv * 60 + sv)
  | [h, m, sec] => do
    let hv ← parseF64Chars h
    let mv ← parseF64Chars m
    let sv ← parseF64Chars sec
    some (hv * 60 * 60 + mv * 60 + sv)
  | [d, h, m, sec] => do
    let dv ← parseF64Chars d
    let hv ← parseF64Chars h
    let mv ← parseF64Chars m
    let sv ← parseF64Chars sec
    some (dv * 60 * 60 * 24 + hv * 60 * 60 + mv * 60 + sv)
  | _ => none

/-- The number/unit split of the duration `custom_parser` (lines 749-757):
find the first character that is neither an ASCII digit nor `e`/`-`/`.` (or
is whitespace), split there (`split_at_checked` always succeeds at a found
index), trim the left part, and trim and lower-case the right part.  Indices
are character positions; they coincide with Rust's byte positions on every
input whose prefix before the split is ASCII, which holds for all inputs
evaluated below. -/
def unitSplit (s : String) : Option (List Char × String) :=
  match s.data.findIdx? fun c =>
      (!c.isDigit && c != 'e' && c != '-' && c != '.') || c.isWhitespace with
  | some p =>
    some (trimChars (s.data.take p),
      String.mk ((trimChars (s.data.drop p)).map Char.toLower))
  | none => none

/-- The duration `custom_parser` closure (lines 745-808), producing seconds:
first try the whole string as a number (`s.parse::<f64>()`); then split it
into number and unit (`unitSplit`), parse the number and look the unit up in
the table (`unitSeconds`); finally fall back to the colon format. -/
def durationParse (s : String) : Option ℚ :=
  match parseF64 s with
  | some v => some v
  | none =>
    let viaUnit : Option ℚ :=
      match unitSplit s with
      | some (num, unit) =>
        match parseF64Chars num with
        | some n => unitSeconds unit n
        | none => none
      | none => none
    match viaUnit with
    | some v => some v
    | none => parseColonFormat s

/-- Decimal digits of a natural number (fuel-based so that the kernel can
evaluate it; `natToString n` always supplies enough fuel). -/
def natDigitsAux : Nat → Nat → List Char
  | 0, _ => []
  | fuel + 1, n =>
    if n < 10 then [Char.ofNat (48 + n)]
    else natDigitsAux fuel (n / 10) ++ [Char.ofNat (48 + n % 10)]

/-- Decimal rendering of a natural number (Rust `{}` for unsigned ints). -/
def natToString (n : Nat) : String :=
  String.mk (natDigitsAux (n + 1) n)

/-- Pad a string on the left with zeros to the given width
(Rust `{:0>width}`). -/
def leftPadZeros (s : String) (width : Nat) : String :=
  if s.length ≥ width then s
  else String.mk (List.replicate (width - s.length) (Char.ofNat 48)) ++ s

/-- Rust `{:0>2}` applied to a natural number. -/
def pad2 (n : Nat) : String :=
  leftPadZeros (natToString n) 2

/-- Round a rational to the nearest integer, ties to even — the rounding Rust
float formatting applies when printing with a fixed number of decimals. -/
def roundHalfEven (q : ℚ) : ℤ :=
  let f := ⌊q⌋
  let r := q - f
  if r < 1 / 2 then f
  else if 1 / 2 < r then f + 1
  else if f % 2 = 0 then f else f + 1

/-- Rust `{value:.prec$}`: fixed-point decimal rendering with exactly `prec`
digits after the point. -/
def fmtFixed (q : ℚ) (prec : Nat) : String :=
  let n := roundHalfEven (q * (10 : ℚ) ^ prec)
  let sign := if n < 0 then ("-") else ("")
  let np := n.natAbs
  let ip := np / 10 ^ prec
  let fp := np % 10 ^ prec
  if prec = 0 then sign ++ natToString ip
  else sign ++ natToString ip ++ (".") ++ leftPadZeros (natToString fp) prec

/-- `Duration::as_secs` of a non-negative duration given in seconds. -/
def asSecs (dur : ℚ) : Nat :=
  (⌊dur⌋).toNat

/-- The duration `custom_formatter` closure (lines 708-744).  `val` is the
`f64` the `DragValue` is formatting and `dur` the captured `&Duration` in
seconds (the two agree whenever the formatter is used on the bound value);
`decimals` is `range.max().unwrap_or(3)`, which is 3 under the
`max_decimals(3)` configuration the `DragValue` is built with.  Sub-minute
values are scaled to ns/µs/ms/s and printed with `decimals` digits; the
`%`, `as_secs` arithmetic of the larger tiers is on the captured duration. -/
def durationFormat (val dur : ℚ) (decimals : Nat) : String :=
  if val < 60 then
    let mu : ℚ × String :=
      if val = 0 then (1, "s")
      else if val < 1 / 1000000 then (1000000000, "ns")
      else if val < 1 / 1000 then (1000000, "µs")
      else if val < 1 then (1000, "ms")
      else (1, "s")
    fmtFixed (val * mu.1) decimals ++ (" ") ++ mu.2
  else if val < 60 * 60 then
    let minutes := asSecs dur / 60
    let secs := dur - 60 * (⌊dur / 60⌋ : ℤ)
    pad2 minutes ++ (":") ++ fmtFixed secs 2
  else if val < 60 * 60 * 24 then
    let s := asSecs dur
    pad2 (s / (60 * 60)) ++ (":") ++ pad2 (s % (60 * 60) / 60) ++ (":") ++ pad2 (s % 60)
  else
    let s := asSecs dur
    pad2 (s / (60 * 60 * 24)) ++ (":") ++ pad2 (s % (60 * 60 * 24) / (60 * 60)) ++ (":")
      ++ pad2 (s % (60 * 60) / 60) ++ (":") ++ pad2 (s % 60)

/-- Modelled from the spec's words, for refinement comparison with the code's
`effectiveMinColWidth`: the claim states the configured width is clamped to
the *maximum width that exactly fits* the available width across `columns`
columns accounting for inter-column spacing, i.e.
`min w ((avail - spacing*(columns-1)) / columns)`. -/
def specExactFitColWidth (width avail spacing : ℚ) (columns : Nat) : ℚ :=
  min width ((avail - spacing * ((columns - 1 : Nat) : ℚ)) / (columns : ℚ))

/-- A trivial host over a unit surface and unit response type; used to build
the concrete instances evaluated below. -/
def trivHost : Host Unit Unit where
  label := fun _ u => u
  labelWrapped := fun _ u => u
  endRow := fun u => u
  checkbox := fun b u => (b, u)
  drawHeadline := fun _ u => u
  errorHighlight := fun _ _ u => u
  gridBegin := fun _ u => u
  gridEnd := fun u => u
  availableWidth := fun _ => 0
  itemSpacingX := fun _ => 0

/-- A property built through the `ValidatedProperty` conversion over the
default widget path whose validation callback always fails. -/
def failingValidatedProp : Property Unit :=
  (ValidatedProperty.new (0 : Nat) fun _ => Except.error ValidationError.OutOfRange).toProperty
    fun _ => Property.from_widget_fn trivHost fun u => ((), u)

/-- A `new_optional` composite over an occupied slot whose nested callback
yields one failing property. -/
def cexOptionalProp : Property Unit :=
  Property.new_optional trivHost ("opt") none (some (0 : Nat)) 0
    fun _ _ => [failingValidatedProp]

/-- An editor whose `show_descriptions` flag was forced through the explicit
setter without any row carrying a description. -/
def cexSetterEditor : PropertyEditor Unit :=
  (PropertyEditor.new 0).set_show_descriptions true

/-- A property with a description, built over the default widget path. -/
def describedProp : Property Unit :=
  (Property.from_widget_fn trivHost fun u => ((), u)).withDescription ("d")

/-- A concrete editor built from `new` by a single `property` call. -/
def builtEditor : PropertyEditor Unit :=
  (PropertyEditor.new 0).property describedProp

/-- The editors reachable from `PropertyEditor::new` through the builder
calls, *excluding* the explicit `show_descriptions` setter. -/
inductive BuiltNoSetter {σ : Type} : PropertyEditor σ → Prop where
  | new (id : EguiId) : BuiltNoSetter (PropertyEditor.new id)
  | property (e : PropertyEditor σ) (p : Property σ) :
      BuiltNoSetter e → BuiltNoSetter (e.property p)
  | named_property (e : PropertyEditor σ) (n : WidgetText) (p : Property σ) :
      BuiltNoSetter e → BuiltNoSetter (e.named_property n p)
  | headline (e : PropertyEditor σ) (t : WidgetText) :
      BuiltNoSetter e → BuiltNoSetter (e.headline t)
  | optional_property {ρ T : Type} (e : PropertyEditor σ) (host : Host σ ρ)
      (n : WidgetText) (value : Option T) (d : T)
      (pcb : σ → T → List (Property σ)) :
      BuiltNoSetter e → BuiltNoSetter (e.optional_property host n value d pcb)
  | optional_property_default {ρ T : Type} [Inhabited T] (e : PropertyEditor σ)
      (host : Host σ ρ) (n : WidgetText) (value : Option T)
      (pcb : σ → T → List (Property σ)) :
      BuiltNoSetter e → BuiltNoSetter (e.optional_property_default host n value pcb)
  | stripes (e : PropertyEditor σ) (b : Bool) :
      BuiltNoSetter e → BuiltNoSetter (e.stripes b)
  | outer_border (e : PropertyEditor σ) (b : Bool) :
      BuiltNoSetter e → BuiltNoSetter (e.outer_border b)
  | headline_spacing (e : PropertyEditor σ) (sp : ℚ × ℚ) :
      BuiltNoSetter e → BuiltNoSetter (e.set_headline_spacing sp)
  | min_col_width (e : PropertyEditor σ) (w : Option ℚ) :
      BuiltNoSetter e → BuiltNoSetter (e.min_col_width w)

set_option maxRecDepth 2000

/-- Staging lemma: a token split with no sign, no exponent and no leftover
parses to mantissa value `ip + fp / 10 ^ |fp|`. -/
theorem parseF64Chars_digits_frac (cs ip fp : List Char)
    (htok : tokenizeF64 cs = (false, ip, fp, none, []))
    (hne : ip.isEmpty = false) :
    parseF64Chars cs
      = some ((digitsToNat ip : ℚ) + (digitsToNat fp : ℚ) / (10 : ℚ) ^ fp.length) := by
  simp [parseF64Chars, htok, hne]

/-- Staging lemma: a pure digit string parses to its digit value. -/
theorem parseF64Chars_digits (cs ip : List Char)
    (htok : tokenizeF64 cs = (false, ip, [], none, []))
    (hne : ip.isEmpty = false) :
    parseF64Chars cs = some ((digitsToNat ip : ℚ)) := by
  have h := parseF64Chars_digits_frac cs ip [] htok hne
  simpa [digitsToNat] using h

/-- Staging lemma: when the whole string parses as a number, the duration
parser returns it directly (the `s.parse::<f64>().ok()` fast path). -/
theorem durationParse_direct (s : String) (v : ℚ) (h : parseF64 s = some v) :
    durationParse s = some v := by
  simp [durationParse, h]

/-- Staging lemma: the number-plus-unit path of the duration parser. -/
theorem durationParse_via_unit (s : String) (num : List Char) (unit : String)
    (n v : ℚ) (h1 : parseF64 s = none) (h2 : unitSplit s = some (num, unit))
    (h3 : parseF64Chars num = some n) (h4 : unitSeconds unit n = some v) :
    durationParse s = some v := by
  simp [durationParse, h1, h2, h3, h4]

/-- Staging lemma: the unit table misses, so the parser falls back to the
colon format. -/
theorem durationParse_unit_miss (s : String) (num : List Char) (unit : String)
    (n : ℚ) (h1 : parseF64 s = none) (h2 : unitSplit s = some (num, unit))
    (h3 : parseF64Chars num = some n) (h4 : unitSeconds unit n = none) :
    durationParse s = parseColonFormat s := by
  simp [durationParse, h1, h2, h3, h4]

/-- Staging lemma: the left part of the split is not a number, so the parser
falls back to the colon format. -/
theorem durationParse_num_miss (s : String) (num : List Char) (unit : String)
    (h1 : parseF64 s = none) (h2 : unitSplit s = some (num, unit))
    (h3 : parseF64Chars num = none) :
    durationParse s = parseColonFormat s := by
  simp [durationParse, h1, h2, h3]

/-- Staging lemma: the two-field (minutes:seconds) colon form. -/
theorem parseColonFormat_two (s : String) (a b : List Char) (qa qb : ℚ)
    (hsplit : splitOnChar ':' s.data = [a, b])
    (ha : parseF64Chars a = some qa) (hb : parseF64Chars b = some qb) :
    parseColonFormat s = some (qa * 60 + qb) := by
  simp [parseColonFormat, hsplit, ha, hb]

/-- Staging lemma: the three-field (hours:minutes:seconds) colon form. -/
theorem parseColonFormat_three (s : String) (a b c : List Char) (qa qb qc : ℚ)
    (hsplit : splitOnChar ':' s.data = [a, b, c])
    (ha : parseF64Chars a = some qa) (hb : parseF64Chars b = some qb)
    (hc : parseF64Chars c = some qc) :
    parseColonFormat s = some (qa * 60 * 60 + qb * 60 + qc) := by
  simp [parseColonFormat, hsplit, ha, hb, hc]

/-- Staging lemma: the four-field (days:hours:minutes:seconds) colon form. -/
theorem parseColonFormat_four (s : String) (a b c d : List Char) (qa qb qc qd : ℚ)
    (hsplit : splitOnChar ':' s.data = [a, b, c, d])
    (ha : parseF64Chars a = some qa) (hb : parseF64Chars b = some qb)
    (hc : parseF64Chars c = some qc) (hd : parseF64Chars d = some qd) :
    parseColonFormat s = some (qa * 60 * 60 * 24 + qb * 60 * 60 + qc * 60 + qd) := by
  simp [parseColonFormat, hsplit, ha, hb, hc, hd]

/-- C5: the duration parser maps `"10s"`, `"10 s"`, `"10000ms"` and `"10"`
to 10 seconds, `"1h"` to 3600 seconds, `"1:30"` (two colon-separated fields,
minutes:seconds) to 90 seconds, and fails (`none`) on an unparsable string
such as `"abc"` — and on `none` the host `egui::DragValue` keeps the previous
value, so the bound duration is left unchanged. -/
theorem duration_parse_examples :
    durationParse ("10s") = some 10 ∧ durationParse ("10 s") = some 10 ∧
    durationParse ("10000ms") = some 10 ∧ durationParse ("10") = some 10 ∧
    durationParse ("1h") = some 3600 ∧ durationParse ("1:30") = some 90 ∧
    durationParse ("abc") = none := by
  refine ⟨?_, ?_, ?_, ?_, ?_, ?_, ?_⟩
  · exact durationParse_via_unit _ ['1', '0'] ("s") _ 10 (by decide) (by decide)
      (parseF64Chars_digits _ ['1', '0'] (by decide) (by decide))
      (by rw [show digitsToNat ['1', '0'] = 10 from by decide]; norm_num [unitSeconds])
  · exact durationParse_via_unit _ ['1', '0'] ("s") _ 10 (by decide) (by decide)
      (parseF64Chars_digits _ ['1', '0'] (by decide) (by decide))
      (by rw [show digitsToNat ['1', '0'] = 10 from by decide]; norm_num [unitSeconds])
  · exact durationParse_via_unit _ ['1', '0', '0', '0', '0'] ("ms") _ 10
      (by decide) (by decide)
      (parseF64Chars_digits _ ['1', '0', '0', '0', '0'] (by decide) (by decide))
      (by rw [show digitsToNat ['1', '0', '0', '0', '0'] = 10000 from by decide]
          norm_num [unitSeconds])
  · refine durationParse_direct _ 10 ?_
    have h := parseF64Chars_digits (("10").data) ['1', '0'] (by decide) (by decide)
    rw [show digitsToNat ['1', '0'] = 10 from by decide] at h
    exact h.trans (by norm_num)
  · exact durationParse_via_unit _ ['1'] ("h") _ 3600 (by decide) (by decide)
      (parseF64Chars_digits _ ['1'] (by decide) (by decide))
      (by rw [show digitsToNat ['1'] = 1 from by decide]; norm_num [unitSeconds])
  · refine (durationParse_unit_miss _ ['1'] (":30") _ (by decide) (by decide)
      (parseF64Chars_digits _ ['1'] (by decide) (by decide))
      (by simp [unitSeconds])).trans ?_
    refine (parseColonFormat_two _ ['1'] ['3', '0'] _ _ (by decide)
      (parseF64Chars_digits _ ['1'] (by decide) (by decide))
      (parseF64Chars_digits _ ['3', '0'] (by decide) (by decide))).trans ?_
    rw [show digitsToNat ['1'] = 1 from by decide,
      show digitsToNat ['3', '0'] = 30 from by decide]
    norm_num
  · refine (durationParse_num_miss _ [] ("abc") (by decide) (by decide)
      (by decide)).trans (by decide)

/-- Staging lemma: `"01:01:01"` parses as 1 hour, 1 minute, 1 second. -/
theorem durationParse_hour_min_sec : durationParse ("01:01:01") = some 3661 := by
  refine (durationParse_unit_miss _ ['0', '1'] (":01:01") _ (by decide) (by decide)
    (parseF64Chars_digits _ ['0', '1'] (by decide) (by decide))
    (by simp [unitSeconds])).trans ?_
  refine (parseColonFormat_three _ ['0', '1'] ['0', '1'] ['0', '1'] _ _ _ (by decide)
    (parseF64Chars_digits _ ['0', '1'] (by decide) (by decide))
    (parseF64Chars_digits _ ['0', '1'] (by decide) (by decide))
    (parseF64Chars_digits _ ['0', '1'] (by decide) (by decide))).trans ?_
  rw [show digitsToNat ['0', '1'] = 1 from by decide]
  norm_num

/-- C6 (amended): for each magnitude tier — sub-microsecond, millisecond,
second, minute, hour, day — a representative duration that is exact at the
formatter's printed precision round-trips exactly through
format-then-parse. -/
theorem duration_roundtrip_tier_representatives :
    durationParse (durationFormat (1/2000000) (1/2000000) 3) = some (1/2000000) ∧
    durationParse (durationFormat (1/200) (1/200) 3) = some (1/200) ∧
    durationParse (durationFormat 10 10 3) = some 10 ∧
    durationParse (durationFormat 90 90 3) = some 90 ∧
    durationParse (durationFormat 3661 3661 3) = some 3661 ∧
    durationParse (durationFormat 90061 90061 3) = some 90061 := by
  refine ⟨?_, ?_, ?_, ?_, ?_, ?_⟩
  · rw [show durationFormat (1/2000000) (1/2000000) 3 = ("500.000 ns") from by
      with_unfolding_all decide]
    exact durationParse_via_unit _ ['5', '0', '0', '.', '0', '0', '0'] ("ns") _
      (1/2000000) (by decide) (by decide)
      (parseF64Chars_digits_frac _ ['5', '0', '0'] ['0', '0', '0'] (by decide) (by decide))
      (by rw [show digitsToNat ['5', '0', '0'] = 500 from by decide,
            show digitsToNat ['0', '0', '0'] = 0 from by decide]
          norm_num [unitSeconds])
  · rw [show durationFormat (1/200) (1/200) 3 = ("5.000 ms") from by
      with_unfolding_all decide]
    exact durationParse_via_unit _ ['5', '.', '0', '0', '0'] ("ms") _ (1/200)
      (by decide) (by decide)
      (parseF64Chars_digits_frac _ ['5'] ['0', '0', '0'] (by decide) (by decide))
      (by rw [show digitsToNat ['5'] = 5 from by decide,
            show digitsToNat ['0', '0', '0'] = 0 from by decide]
          norm_num [unitSeconds])
  · rw [show durationFormat 10 10 3 = ("10.000 s") from by with_unfolding_all decide]
    exact durationParse_via_unit _ ['1', '0', '.', '0', '0', '0'] ("s") _ 10
      (by decide) (by decide)
      (parseF64Chars_digits_frac _ ['1', '0'] ['0', '0', '0'] (by decide) (by decide))
      (by rw [show digitsToNat ['1', '0'] = 10 from by decide,
            show digitsToNat ['0', '0', '0'] = 0 from by decide]
          norm_num [unitSeconds])
  · rw [show durationFormat 90 90 3 = ("01:30.00") from by with_unfolding_all decide]
    refine (durationParse_unit_miss _ ['0', '1'] (":30.00") _ (by decide) (by decide)
      (parseF64Chars_digits _ ['0', '1'] (by decide) (by decide))
      (by simp [unitSeconds])).trans ?_
    refine (parseColonFormat_two _ ['0', '1'] ['3', '0', '.', '0', '0'] _ _ (by decide)
      (parseF64Chars_digits _ ['0', '1'] (by decide) (by decide))
      (parseF64Chars_digits_frac _ ['3', '0'] ['0', '0'] (by decide) (by decide))).trans ?_
    rw [show digitsToNat ['0', '1'] = 1 from by decide,
      show digitsToNat ['3', '0'] = 30 from by decide,
      show digitsToNat ['0', '0'] = 0 from by decide]
    norm_num
  · rw [show durationFormat 3661 3661 3 = ("01:01:01") from by with_unfolding_all decide]
    exact durationParse_hour_min_sec
  · rw [show durationFormat 90061 90061 3 = ("01:01:01:01") from by
      with_unfolding_all decide]
    refine (durationParse_unit_miss _ ['0', '1'] (":01:01:01") _ (by decide) (by decide)
      (parseF64Chars_digits _ ['0', '1'] (by decide) (by decide))
      (by simp [unitSeconds])).trans ?_
    refine (parseColonFormat_four _ ['0', '1'] ['0', '1'] ['0', '1'] ['0', '1'] _ _ _ _
      (by decide)
      (parseF64Chars_digits _ ['0', '1'] (by decide) (by decide))
      (parseF64Chars_digits _ ['0', '1'] (by decide) (by decide))
      (parseF64Chars_digits _ ['0', '1'] (by decide) (by decide))
      (parseF64Chars_digits _ ['0', '1'] (by decide) (by decide))).trans ?_
    rw [show digitsToNat ['0', '1'] = 1 from by decide]
    norm_num

/-- C6 counterexample: one hour, one minute and 1.5 seconds (3661.5 s, an
hour-tier duration) formats to `"01:01:01"` — the hour tier prints whole
seconds only — which parses back to 3661 s, off by half a second: far beyond
any floating-point tolerance, refuting the claim for all durations of the
tier. -/
theorem duration_roundtrip_cex_hour_tier :
    durationParse (durationFormat (7323/2) (7323/2) 3) = some 3661 ∧
    (7323 : ℚ)/2 - 3661 = 1/2 ∧ ¬((7323 : ℚ)/2 - 3661 ≤ 1/1000) := by
  refine ⟨?_, by norm_num, by norm_num⟩
  rw [show durationFormat (7323/2) (7323/2) 3 = ("01:01:01") from by
    with_unfolding_all decide]
  exact durationParse_hour_min_sec

/-- The grid-block batching of `inner_ui` is semantically equivalent to
drawing each row independently: both loops return the accumulator ANDed with
the conjunction of all row results of the sequential reference renderer, and
leave the same surface state.  (Strong induction on the row-list length,
covering the outer loop and the inner `next_if` loop together.) -/
theorem editorLoop_eq_drawRowsSeq {σ ρ : Type} (host : Host σ ρ) (sd : Bool) :
    ∀ (n : Nat) (es : List (EditorLine σ)), es.length ≤ n → ∀ (acc : Bool) (ui : σ),
      editorLoop host sd es acc ui
        = (acc && (drawRowsSeq host sd es ui).1.all id, (drawRowsSeq host sd es ui).2)
      ∧ editorLoopInner host sd es acc ui
        = (acc && (drawRowsSeq host sd es ui).1.all id, (drawRowsSeq host sd es ui).2) := by
  intro n
  induction n with
  | zero =>
    intro es hle acc ui
    have hnil : es = [] := List.eq_nil_of_length_eq_zero (Nat.le_zero.mp hle)
    subst hnil
    refine ⟨?_, ?_⟩ <;> simp [editorLoop, editorLoopInner, drawRowsSeq]
  | succ m ih =>
    intro es hle acc ui
    cases es with
    | nil => refine ⟨?_, ?_⟩ <;> simp [editorLoop, editorLoopInner, drawRowsSeq]
    | cons head rest =>
      have hr : rest.length ≤ m := by
        simpa [List.length_cons] using hle
      cases head with
      | Headline t =>
        have houter : editorLoop host sd (EditorLine.Headline t :: rest) acc ui
            = (acc && (drawRowsSeq host sd (EditorLine.Headline t :: rest) ui).1.all id,
               (drawRowsSeq host sd (EditorLine.Headline t :: rest) ui).2) := by
          have h1 := (ih rest hr acc (host.drawHeadline t ui)).1
          simp only [editorLoop, drawRowsSeq]
          exact h1
        refine ⟨houter, ?_⟩
        simp only [editorLoopInner]
        exact houter
      | Property p =>
        have hinner := (ih rest hr (acc && (p.draw ui sd).1) (p.draw ui sd).2).2
        have hexp : drawRowsSeq host sd (EditorLine.Property p :: rest) ui
            = ((p.draw ui sd).1 :: (drawRowsSeq host sd rest (p.draw ui sd).2).1,
               (drawRowsSeq host sd rest (p.draw ui sd).2).2) := by
          simp only [drawRowsSeq]
        constructor
        · simp only [editorLoop]
          rw [hinner, hexp]
          dsimp only
          rw [List.all_cons, id_eq, Bool.and_assoc]
        · simp only [editorLoopInner]
          rw [hinner, hexp]
          dsimp only
          rw [List.all_cons, id_eq, Bool.and_assoc]

/-- A row list consisting only of headlines yields no row results. -/
theorem drawRowsSeq_map_headline {σ ρ : Type} (host : Host σ ρ) (sd : Bool) :
    ∀ (ts : List WidgetText) (ui : σ),
      (drawRowsSeq host sd (ts.map EditorLine.Headline) ui).1 = [] := by
  intro ts
  induction ts with
  | nil => intro ui; simp [drawRowsSeq]
  | cons t rest ih => intro ui; simp [drawRowsSeq, ih]

/-- C1: rendering the accumulated rows (`inner_ui`) returns the logical AND,
in insertion order, of the booleans returned by the `Property` rows' deferred
draw operations (the sequential reference `drawRowsSeq` run inside the grid's
child surface); headline rows contribute nothing, the grouping of consecutive
property rows into grid blocks does not change the result, and a row sequence
containing zero `Property` rows yields `true`. -/
theorem inner_ui_validation_fold {σ ρ : Type} (host : Host σ ρ)
    (e : PropertyEditor σ) (ui : σ) :
    ((e.inner_ui host ui).1
      = (drawRowsSeq host e.show_descriptions e.entries
          (host.gridBegin (e.gridConfig host ui) ui)).1.all id)
    ∧ ∀ (e2 : PropertyEditor σ) (ts : List WidgetText) (ui2 : σ),
        (({ e2 with entries := ts.map EditorLine.Headline } : PropertyEditor σ).inner_ui
          host ui2).1 = true := by
  constructor
  · have h := (editorLoop_eq_drawRowsSeq host e.show_descriptions e.entries.length
      e.entries le_rfl true (host.gridBegin (e.gridConfig host ui) ui)).1
    simp [PropertyEditor.inner_ui, gridShow, h]
  · intro e2 ts ui2
    have h := (editorLoop_eq_drawRowsSeq host
      ({ e2 with entries := ts.map EditorLine.Headline } : PropertyEditor σ).show_descriptions
      (ts.map EditorLine.Headline).length (ts.map EditorLine.Headline) le_rfl true
      (host.gridBegin (({ e2 with entries := ts.map EditorLine.Headline } :
        PropertyEditor σ).gridConfig host ui2) ui2)).1
    simp [PropertyEditor.inner_ui, gridShow, h, drawRowsSeq_map_headline]

/-- C2 (amended): for every `Property` whose drawing goes through
`default_property_draw_fn` — the default widget path (`from_widget_fn`, used
by all primitive conversions) and the `ValidatedProperty` conversions over
it — the boolean returned by `draw` is `true` iff its `validation_result` is
`Ok`.  (`new_optional` composites and `from_custom_draw_fn` properties
determine their return independently of `validation_result`; see the
counterexample.) -/
theorem default_draw_true_iff_ok {σ ρ : Type} (host : Host σ ρ) :
    (∀ (ui : σ) (n d : Option WidgetText) (v : VResult) (dd : Bool) (cb : σ → ρ × σ),
        (default_property_draw_fn host ui n d v dd cb).1 = true ↔ v = Except.ok ())
    ∧ (∀ (cb : σ → ρ × σ) (ui : σ) (dd : Bool),
        ((Property.from_widget_fn host cb).draw ui dd).1 = true)
    ∧ (∀ (T : Type) (vp : ValidatedProperty T) (cb : T → σ → ρ × σ) (ui : σ) (dd : Bool),
        ((vp.with_widget_cb host cb).draw ui dd).1 = true
          ↔ vp.validation_cb vp.value = Except.ok ())
    ∧ (∀ (T : Type) (vp : ValidatedProperty T) (base : T → σ → ρ × σ) (ui : σ) (dd : Bool),
        ((vp.toProperty fun t => Property.from_widget_fn host (base t)).draw ui dd).1 = true
          ↔ vp.validation_cb vp.value = Except.ok ()) := by
  have hcore : ∀ (ui : σ) (n d : Option WidgetText) (v : VResult) (dd : Bool)
      (cb : σ → ρ × σ),
      (default_property_draw_fn host ui n d v dd cb).1 = true ↔ v = Except.ok () := by
    intro ui n d v dd cb
    cases v with
    | ok u => cases u; simp [default_property_draw_fn]
    | error e => simp [default_property_draw_fn]
  refine ⟨hcore, ?_, ?_, ?_⟩
  · intro cb ui dd
    exact (hcore ui none none (Except.ok ()) dd cb).mpr rfl
  · intro T vp cb ui dd
    exact hcore ui none none (vp.validation_cb vp.value) dd (cb vp.value)
  · intro T vp base ui dd
    exact hcore ui none none (vp.validation_cb vp.value) dd (base vp.value)

/-- C2 counterexample: the `new_optional` composite `cexOptionalProp` has
`validation_result = Ok(())`, yet its draw returns `false` (the closure
ignores its `validation_result` argument and returns the AND of the nested
properties' draws, one of which fails validation) — refuting the claimed
iff for the `new_optional` construction path. -/
theorem new_optional_draw_ignores_validation_cex :
    cexOptionalProp.validation_result = Except.ok () ∧
    (cexOptionalProp.draw () true).1 = false :=
  ⟨rfl, by decide⟩

/-- C7: the optional-property slot update of `new_optional`: toggling the
checkbox on over an empty slot assigns exactly the configured default;
toggling it off over an occupied slot clears it; a checkbox state matching
the slot's presence leaves the slot unchanged — and the slot returned by
`new_optional_draw` is exactly this update applied to the checkbox outcome. -/
theorem optional_slot_update_semantics {σ ρ : Type} :
    (∀ (T : Type) (d : T), optionalSlotUpdate true (none : Option T) d = some d)
    ∧ (∀ (T : Type) (v d : T), optionalSlotUpdate false (some v) d = none)
    ∧ (∀ (T : Type) (value : Option T) (d : T),
        optionalSlotUpdate value.isSome value d = value)
    ∧ (∀ (T : Type) (host : Host σ ρ) (value : Option T) (d : T)
        (pcb : σ → T → List (Property σ)) (ui : σ) (n ds : Option WidgetText) (dd : Bool),
        (new_optional_draw host value d pcb ui n ds dd).2.2
          = optionalSlotUpdate (host.checkbox value.isSome (labelOrEmpty host n ui)).1
              value d) := by
  refine ⟨?_, ?_, ?_, ?_⟩
  · intro T d
    simp [optionalSlotUpdate]
  · intro T v d
    simp [optionalSlotUpdate]
  · intro T value d
    simp [optionalSlotUpdate]
  · intro T host value d pcb ui n ds dd
    cases h : optionalSlotUpdate (host.checkbox value.isSome (labelOrEmpty host n ui)).1
        value d with
    | some v => simp [new_optional_draw, h]
    | none => simp [new_optional_draw, h]

/-- C3: evaluating the code at the failing input — on first use (`load`
returns `None`) the state is `PropertyEditorStore::default()`, whose derived
`Default` gives `first_pass = false` (not `true` as specified) and
`last_width = 0`. -/
theorem store_default_first_pass_false :
    (PropertyEditorStore.loadOrDefault none).first_pass = false ∧
    (PropertyEditorStore.loadOrDefault none).last_width = 0 :=
  ⟨rfl, rfl⟩

/-- C4: the stale-layout signal (`request_discard` condition).  At the
default-loaded store of a fresh identifier with a final width of exactly 0,
no signal is raised (refuting "the very first render always raises the
signal": the derived `Default` leaves `first_pass = false`, so the first
render signals only through `last_width = 0` differing from the final
width); a subsequent render with unchanged width raises no signal; and the
signal is raised iff `first_pass` is set or the width changed. -/
theorem stale_signal_at_default_store :
    staleLayout (PropertyEditorStore.loadOrDefault none) 0 = false
    ∧ (∀ (store : PropertyEditorStore) (w : ℚ),
        staleLayout (store.afterPass w) w = false)
    ∧ (∀ (store : PropertyEditorStore) (w : ℚ),
        staleLayout store w = true ↔ (store.first_pass = true ∨ store.last_width ≠ w)) := by
  refine ⟨?_, ?_, ?_⟩
  · simp [staleLayout, PropertyEditorStore.loadOrDefault, PropertyEditorStore.derivedDefault]
  · intro store w
    simp [staleLayout, PropertyEditorStore.afterPass]
  · intro store w
    simp [staleLayout, Bool.or_eq_true, bne_iff_ne]

/-- C8 (amended): for every editor built from `PropertyEditor::new` by the
builder calls other than the explicit `show_descriptions` setter, the
`show_descriptions` flag is `true` iff at least one added row carries a
description, and the grid is configured with 3 columns when the flag is set
and 2 otherwise. -/
theorem show_descriptions_iff_any_row {σ : Type} (e : PropertyEditor σ)
    (h : BuiltNoSetter e) :
    e.show_descriptions = e.entries.any EditorLine.hasDescription
    ∧ e.columns = (if e.entries.any EditorLine.hasDescription then 3 else 2) := by
  have hmain : e.show_descriptions = e.entries.any EditorLine.hasDescription := by
    induction h with
    | new id => simp [PropertyEditor.new]
    | property e p hb ih =>
      simp [PropertyEditor.property, List.any_append, EditorLine.hasDescription, ih]
    | named_property e n p hb ih =>
      simp [PropertyEditor.named_property, PropertyEditor.property, Property.withName,
        List.any_append, EditorLine.hasDescription, ih]
    | headline e t hb ih =>
      simp [PropertyEditor.headline, List.any_append, EditorLine.hasDescription, ih]
    | optional_property e host n value d pcb hb ih =>
      simp [PropertyEditor.optional_property, PropertyEditor.property,
        Property.new_optional, List.any_append, EditorLine.hasDescription, ih]
    | optional_property_default e host n value pcb hb ih =>
      simp [PropertyEditor.optional_property_default, PropertyEditor.property,
        Property.new_optional, List.any_append, EditorLine.hasDescription, ih]
    | stripes e b hb ih => simpa [PropertyEditor.stripes] using ih
    | outer_border e b hb ih => simpa [PropertyEditor.outer_border] using ih
    | headline_spacing e sp hb ih => simpa [PropertyEditor.set_headline_spacing] using ih
    | min_col_width e w hb ih => simpa [PropertyEditor.min_col_width] using ih
  refine ⟨hmain, ?_⟩
  simp only [PropertyEditor.columns, hmain]

/-- Witness for `show_descriptions_iff_any_row` at the concrete editor
`builtEditor` (one described property added to a fresh editor). -/
theorem show_descriptions_iff_any_row_witness :
    builtEditor.show_descriptions = builtEditor.entries.any EditorLine.hasDescription
    ∧ builtEditor.columns
        = (if builtEditor.entries.any EditorLine.hasDescription then 3 else 2) :=
  show_descriptions_iff_any_row builtEditor
    (BuiltNoSetter.property (PropertyEditor.new 0) describedProp (BuiltNoSetter.new 0))

/-- C8 counterexample: the explicit `show_descriptions` setter makes the flag
`true` on an editor none of whose rows carries a description, refuting the
claimed iff for editors in general. -/
theorem show_descriptions_setter_cex :
    cexSetterEditor.show_descriptions = true ∧
    cexSetterEditor.entries.any EditorLine.hasDescription = false :=
  ⟨rfl, rfl⟩

/-- C9 (amended): the effective minimum column width handed to the grid is
`min w (avail/columns - spacing*(columns-1))` — the code subtracts the whole
inter-column spacing total from the per-column share, not its per-column
share — which never exceeds the configured width, never exceeds the
exact-fit width `min w ((avail - spacing*(columns-1))/columns)` the claim
states, and never makes the grid's minimum widths exceed the available
width; but it does not equal the claimed exact fit in general (see the
counterexample). -/
theorem effective_min_col_width_no_overflow (w A s : ℚ) (c : Nat)
    (hc : 1 ≤ c) (hs : 0 ≤ s) :
    effectiveMinColWidth w A s c ≤ w
    ∧ effectiveMinColWidth w A s c ≤ specExactFitColWidth w A s c
    ∧ (c : ℚ) * effectiveMinColWidth w A s c + s * ((c - 1 : Nat) : ℚ) ≤ A := by
  have hc1 : (1 : ℚ) ≤ (c : ℚ) := by exact_mod_cast hc
  have hc0 : (0 : ℚ) < (c : ℚ) := lt_of_lt_of_le one_pos hc1
  have hk : (0 : ℚ) ≤ ((c - 1 : Nat) : ℚ) := Nat.cast_nonneg _
  have hsk : (0 : ℚ) ≤ s * ((c - 1 : Nat) : ℚ) := mul_nonneg hs hk
  have hmin : effectiveMinColWidth w A s c
      ≤ A / (c : ℚ) - s * ((c - 1 : Nat) : ℚ) := min_le_right _ _
  refine ⟨min_le_left _ _, ?_, ?_⟩
  · unfold effectiveMinColWidth specExactFitColWidth
    refine min_le_min le_rfl ?_
    rw [sub_div]
    exact sub_le_sub_left (div_le_self hsk hc1) _
  · have h3 : (c : ℚ) * effectiveMinColWidth w A s c
        ≤ (c : ℚ) * (A / (c : ℚ) - s * ((c - 1 : Nat) : ℚ)) :=
      mul_le_mul_of_nonneg_left hmin hc0.le
    rw [mul_sub, mul_div_cancel₀ _ hc0.ne'] at h3
    nlinarith [mul_nonneg (sub_nonneg.mpr hc1) hsk]

/-- Witness for `effective_min_col_width_no_overflow` at
`w = 60, A = 100, s = 8, c = 2` (where the effective width is 42). -/
theorem effective_min_col_width_no_overflow_witness :
    effectiveMinColWidth 60 100 8 2 ≤ 60
    ∧ effectiveMinColWidth 60 100 8 2 ≤ specExactFitColWidth 60 100 8 2
    ∧ ((2 : Nat) : ℚ) * effectiveMinColWidth 60 100 8 2 + 8 * (((2 : Nat) - 1 : Nat) : ℚ) ≤ 100 :=
  effective_min_col_width_no_overflow 60 100 8 2 (by decide) (by norm_num)

/-- C9 counterexample: at available width 100, spacing 8, 2 columns and a
configured width of 60, the code's clamp yields `100/2 - 8 = 42`, while the
claimed exact-fit clamp is `(100-8)/2 = 46`; the two differ, and the code's
result does not exactly fill the available width (`2*42 + 8 = 92 ≠ 100`). -/
theorem min_col_width_clamp_cex :
    effectiveMinColWidth 60 100 8 2 = 42 ∧ specExactFitColWidth 60 100 8 2 = 46 ∧
    effectiveMinColWidth 60 100 8 2 ≠ specExactFitColWidth 60 100 8 2 ∧
    (2 : ℚ) * effectiveMinColWidth 60 100 8 2 + 8 ≠ 100 := by
  norm_num [effectiveMinColWidth, specExactFitColWidth]

/-- C10: the builder's row-adding operations never clear `show_descriptions`:
once the flag is `true`, `property`, `named_property`, `headline`,
`optional_property` and `optional_property_default` all leave it `true`
(`property` computes it with a logical OR of the new row's description
presence). -/
theorem builder_show_descriptions_monotone {σ ρ : Type} (host : Host σ ρ)
    (e : PropertyEditor σ) (h : e.show_descriptions = true) :
    (∀ p : Property σ, (e.property p).show_descriptions = true)
    ∧ (∀ (n : WidgetText) (p : Property σ),
        (e.named_property n p).show_descriptions = true)
    ∧ (∀ t : WidgetText, (e.headline t).show_descriptions = true)
    ∧ (∀ (T : Type) (n : WidgetText) (value : Option T) (d : T)
        (pcb : σ → T → List (Property σ)),
        (e.optional_property host n value d pcb).show_descriptions = true)
    ∧ (∀ (T : Type) (_inst : Inhabited T) (n : WidgetText) (value : Option T)
        (pcb : σ → T → List (Property σ)),
        (e.optional_property_default host n value pcb).show_descriptions = true)
    ∧ (∀ p : Property σ,
        (e.property p).show_descriptions
          = (e.show_descriptions || p.description.isSome)) := by
  refine ⟨?_, ?_, ?_, ?_, ?_, ?_⟩ <;> intros <;>
    simp [PropertyEditor.property, PropertyEditor.named_property, PropertyEditor.headline,
      PropertyEditor.optional_property, PropertyEditor.optional_property_default, h]

/-- Witness for `builder_show_descriptions_monotone` at the concrete editor
`builtEditor`, whose flag is already `true`. -/
theorem builder_show_descriptions_monotone_witness :
    (∀ p : Property Unit, (builtEditor.property p).show_descriptions = true)
    ∧ (∀ (n : WidgetText) (p : Property Unit),
        (builtEditor.named_property n p).show_descriptions = true)
    ∧ (∀ t : WidgetText, (builtEditor.headline t).show_descriptions = true)
    ∧ (∀ (T : Type) (n : WidgetText) (value : Option T) (d : T)
        (pcb : Unit → T → List (Property Unit)),
        (builtEditor.optional_property trivHost n value d pcb).show_descriptions = true)
    ∧ (∀ (T : Type) (_inst : Inhabited T) (n : WidgetText) (value : Option T)
        (pcb : Unit → T → List (Property Unit)),
        (builtEditor.optional_property_default trivHost n value pcb).show_descriptions
          = true)
    ∧ (∀ p : Property Unit,
        (builtEditor.property p).show_descriptions
          = (builtEditor.show_descriptions || p.description.isSome)) :=
  builder_show_descriptions_monotone trivHost builtEditor rfl
